import Mathlib

/-!
# Shallow embedding of the ObjectBox Raft consensus core

This development embeds the Rust sources under `libs/consensus/src/`
(`types.rs`, `state.rs`, `log.rs`, `node.rs`, `rpc.rs`) as executable Lean
definitions and proves properties of the RequestVote / AppendEntries
handlers, the apply loop, the in-memory log storage and the candidate
majority test.

Conventions of the embedding:
* `Term`, `LogIndex` and `NodeId` are `u64` newtypes in Rust; the claims
  never involve overflow, so they are modelled as `Nat`.
* Payloads (`Vec<u8>`) are modelled as `List Nat`.
* `MemoryLogStorage` methods that return `Result<...>` but in fact always
  return `Ok` (`append`, `get`, `get_term`, `delete_from`) are modelled by
  their `Ok` payload directly.
* The handlers in `node.rs` mutate `NodeState` and `RaftLog` behind locks;
  they are modelled as pure functions from
  `(node state, log) × request` to `(node state, log) × response`.
  Timing (`reset_election_timeout`) and tracing are not part of any claim
  and are omitted.
-/

namespace ObjectBox

/-- From `types.rs`: a single entry in the Raft log: `(term, index, command)`. -/
structure Entry where
  term : Nat
  index : Nat
  command : List Nat
deriving DecidableEq, Repr

/-- From `types.rs`: snapshot metadata
`(last_included_index, last_included_term, configuration)`. -/
structure SnapshotMetadata where
  last_included_index : Nat
  last_included_term : Nat
  configuration : List Nat
deriving DecidableEq, Repr

/-- From `types.rs`: a complete snapshot of the state machine. -/
structure Snapshot where
  metadata : SnapshotMetadata
  data : List Nat
deriving DecidableEq, Repr

/-- From `log.rs`: in-memory log storage: a vector of entries plus an optional
installed snapshot. -/
structure MemoryLogStorage where
  entries : List Entry
  snapshot : Option Snapshot
deriving DecidableEq, Repr

namespace MemoryLogStorage

/-- From `log.rs` `MemoryLogStorage::new`. -/
def new : MemoryLogStorage := ⟨[], none⟩

/-- From `log.rs` `MemoryLogStorage::offset`: the first log index held in the
entries vector: `snapshot.last_included_index + 1`, or `1` with no
snapshot. -/
def offset (s : MemoryLogStorage) : Nat :=
  match s.snapshot with
  | some snap => snap.metadata.last_included_index + 1
  | none => 1

/-- From `log.rs` `MemoryLogStorage::to_array_index`: convert a log index to a
position in the entries vector; `None` below the offset. -/
def to_array_index (s : MemoryLogStorage) (index : Nat) : Option Nat :=
  if index < s.offset then none else some (index - s.offset)

/-- From `log.rs` `MemoryLogStorage::to_log_index`: convert a vector position
back to a log index. -/
def to_log_index (s : MemoryLogStorage) (array_idx : Nat) : Nat :=
  s.offset + array_idx

/-- From `log.rs` `MemoryLogStorage::append`: extends the entries vector with
the given entries; always returns `Ok(())` and performs no validation. -/
def append (s : MemoryLogStorage) (es : List Entry) : MemoryLogStorage :=
  { s with entries := s.entries ++ es }

/-- From `log.rs` `MemoryLogStorage::get`: `None` for indices covered by the
snapshot, otherwise a positional lookup through `to_array_index`. -/
def get (s : MemoryLogStorage) (index : Nat) : Option Entry :=
  match s.snapshot with
  | some snap =>
      if index ≤ snap.metadata.last_included_index then none
      else (s.to_array_index index).bind fun idx => s.entries.get? idx
  | none => (s.to_array_index index).bind fun idx => s.entries.get? idx

/-- From `log.rs` `MemoryLogStorage::delete_from`: truncate the entries vector
from the given log index onward; a no-op when the index is below the
offset. -/
def delete_from (s : MemoryLogStorage) (index : Nat) : MemoryLogStorage :=
  match s.to_array_index index with
  | some idx => { s with entries := s.entries.take idx }
  | none => s

/-- From `log.rs` `MemoryLogStorage::last_index`: last log index, falling back
to the snapshot boundary (or 0) when the entries vector is empty. -/
def last_index (s : MemoryLogStorage) : Nat :=
  if s.entries.isEmpty then
    match s.snapshot with
    | some snap => snap.metadata.last_included_index
    | none => 0
  else s.to_log_index (s.entries.length - 1)

/-- From `log.rs` `MemoryLogStorage::last_term`: term of the last entry,
falling back to the snapshot's `last_included_term` (or 0). -/
def last_term (s : MemoryLogStorage) : Nat :=
  match s.entries.getLast? with
  | some e => e.term
  | none =>
      match s.snapshot with
      | some snap => snap.metadata.last_included_term
      | none => 0

/-- From `log.rs` `MemoryLogStorage::get_term`: the snapshot boundary index
reports `last_included_term`; indices below it report `None`; others
defer to `get`. -/
def get_term (s : MemoryLogStorage) (index : Nat) : Option Nat :=
  match s.snapshot with
  | some snap =>
      if index = snap.metadata.last_included_index then
        some snap.metadata.last_included_term
      else if index < snap.metadata.last_included_index then none
      else (s.get index).map Entry.term
  | none => (s.get index).map Entry.term

end MemoryLogStorage

/-- From `state.rs`: the role a Raft node can be in. -/
inductive RaftRole where
  | Follower
  | Candidate
  | Leader
deriving DecidableEq, Repr

/-- From `state.rs` `PersistentState`: `current_term` and `voted_for`. -/
structure PersistentState where
  current_term : Nat
  voted_for : Option Nat
deriving DecidableEq, Repr

/-- From `state.rs` `VolatileState`: `commit_index` and `last_applied`. -/
structure VolatileState where
  commit_index : Nat
  last_applied : Nat
deriving DecidableEq, Repr

/-- From `state.rs` `LeaderState`: per-peer `next_index` / `match_index`. -/
structure LeaderState where
  next_index : List (Nat × Nat)
  match_index : List (Nat × Nat)
deriving DecidableEq, Repr

/-- From `state.rs` `CandidateState`: the set of nodes that have granted votes
in this election (a `HashSet<NodeId>`). -/
structure CandidateState where
  votes_received : Finset Nat
deriving DecidableEq

namespace CandidateState

/-- From `state.rs` `CandidateState::has_majority`: `votes_received.len() + 1`
(+1 for self) compared against `cluster_size / 2` with integer
division. -/
def has_majority (c : CandidateState) (cluster_size : Nat) : Bool :=
  c.votes_received.card + 1 > cluster_size / 2

end CandidateState

/-- From `state.rs` `NodeState`: the complete per-node Raft state. -/
structure NodeState where
  role : RaftRole
  id : Nat
  leader_id : Option Nat
  persistent : PersistentState
  volatile : VolatileState
  leader_state : Option LeaderState
  candidate_state : Option CandidateState
  peers : List Nat
deriving DecidableEq

namespace NodeState

/-- From `state.rs` `NodeState::new`. -/
def new (id : Nat) (peers : List Nat) : NodeState :=
  { role := .Follower
    id := id
    leader_id := none
    persistent := { current_term := 0, voted_for := none }
    volatile := { commit_index := 0, last_applied := 0 }
    leader_state := none
    candidate_state := none
    peers := peers }

/-- From `state.rs` `NodeState::become_follower`: sets role, `current_term`
and `leader_id`, drops leader/candidate state. It does not touch
`voted_for`. -/
def become_follower (s : NodeState) (term : Nat) (leader : Option Nat) :
    NodeState :=
  { s with
    role := .Follower
    persistent := { s.persistent with current_term := term }
    leader_id := leader
    leader_state := none
    candidate_state := none }

end NodeState

/-- From `rpc.rs` `RequestVoteRequest`. -/
structure RequestVoteRequest where
  term : Nat
  candidate_id : Nat
  last_log_index : Nat
  last_log_term : Nat
deriving DecidableEq, Repr

/-- From `rpc.rs` `RequestVoteResponse`. -/
structure RequestVoteResponse where
  term : Nat
  vote_granted : Bool
deriving DecidableEq, Repr

/-- From `rpc.rs` `AppendEntriesRequest`. -/
structure AppendEntriesRequest where
  term : Nat
  leader_id : Nat
  prev_log_index : Nat
  prev_log_term : Nat
  entries : List Entry
  leader_commit : Nat
deriving DecidableEq, Repr

/-- From `rpc.rs` `AppendEntriesResponse`. -/
structure AppendEntriesResponse where
  term : Nat
  success : Bool
  match_index : Option Nat
  commit_index : Nat
deriving DecidableEq, Repr

/-- From `node.rs` `RaftNodeInner`: the node state together with its log
(the only storage backend constructed is `MemoryLogStorage`, via
`RaftLog::new_memory`). -/
structure RaftNodeInner where
  state : NodeState
  log : MemoryLogStorage
deriving DecidableEq

namespace RaftNodeInner

/-- From `node.rs` `RaftNodeInner::handle_request_vote`: step down on a higher
term, then grant the vote iff the term is current, no conflicting vote
was cast, and the candidate's log is at least as up-to-date. -/
def handle_request_vote (n : RaftNodeInner) (req : RequestVoteRequest) :
    RaftNodeInner × RequestVoteResponse :=
  let s :=
    if req.term > n.state.persistent.current_term then
      n.state.become_follower req.term none
    else n.state
  if req.term ≥ s.persistent.current_term then
    let already_voted : Bool :=
      match s.persistent.voted_for with
      | some v => v ≠ req.candidate_id
      | none => false
    if ¬already_voted then
      let our_last_term := n.log.last_term
      let our_last_index := n.log.last_index
      let log_ok : Bool :=
        req.last_log_term > our_last_term ∨
          (req.last_log_term = our_last_term ∧
            req.last_log_index ≥ our_last_index)
      if log_ok then
        ({ n with state :=
            { s with persistent :=
                { s.persistent with voted_for := some req.candidate_id } } },
         { term := s.persistent.current_term, vote_granted := true })
      else
        ({ n with state := s },
         { term := s.persistent.current_term, vote_granted := false })
    else
      ({ n with state := s },
       { term := s.persistent.current_term, vote_granted := false })
  else
    ({ n with state := s },
     { term := s.persistent.current_term, vote_granted := false })

/-- From `node.rs` `RaftNodeInner::handle_append_entries`: step down on a
higher term; reject stale terms; run the `prev_log_index` consistency
check; delete conflicting entries and append the request's entries;
advance `commit_index`. -/
def handle_append_entries (n : RaftNodeInner) (req : AppendEntriesRequest) :
    RaftNodeInner × AppendEntriesResponse :=
  let s :=
    if req.term > n.state.persistent.current_term then
      n.state.become_follower req.term (some req.leader_id)
    else n.state
  if req.term < s.persistent.current_term then
    ({ n with state := s },
     { term := s.persistent.current_term
       success := false
       match_index := none
       commit_index := s.volatile.commit_index })
  else
    let s := { s with leader_id := some req.leader_id }
    if req.prev_log_index > 0 ∧
        n.log.get_term req.prev_log_index ≠ some req.prev_log_term then
      ({ n with state := s },
       { term := s.persistent.current_term
         success := false
         match_index := some n.log.last_index
         commit_index := s.volatile.commit_index })
    else
      let log :=
        if req.entries.isEmpty then n.log
        else
          let log1 :=
            match req.entries.head? with
            | some first_new =>
                match n.log.get_term first_new.index with
                | some existing_term =>
                    if existing_term ≠ first_new.term then
                      n.log.delete_from first_new.index
                    else n.log
                | none => n.log
            | none => n.log
          log1.append req.entries
      let s :=
        if req.leader_commit > s.volatile.commit_index then
          let last_new_index :=
            (req.entries.getLast?.map Entry.index).getD req.prev_log_index
          { s with volatile :=
              { s.volatile with
                commit_index := min req.leader_commit last_new_index } }
        else s
      ({ state := s, log := log },
       { term := s.persistent.current_term
         success := true
         match_index := some log.last_index
         commit_index := s.volatile.commit_index })

end RaftNodeInner

/-- From `node.rs` `RaftNodeInner::apply_committed`: while
`last_applied < commit_index`, increment `last_applied`, read the entry
there and apply its command to the state machine. Returns the final
`last_applied` together with the list of commands applied, in order
(for a missing entry the `if let` skips the apply call). -/
def apply_committed (log : MemoryLogStorage) (last_applied commit_index : Nat) :
    Nat × List (List Nat) :=
  if last_applied < commit_index then
    let la := last_applied + 1
    let applied :=
      match log.get la with
      | some e => [e.command]
      | none => []
    let rest := apply_committed log la commit_index
    (rest.1, applied ++ rest.2)
  else (last_applied, [])
termination_by commit_index - last_applied

/-- From `node.rs` `RaftNode::request_vote`: the public RPC entry point. The
node's command loop is reached over a channel; `handler = none` models
the loop having stopped (channel closed / sender dropped), in which case
both failure paths return the same constant response. -/
def request_vote_entry
    (handler : Option (RequestVoteRequest → RequestVoteResponse))
    (req : RequestVoteRequest) : RequestVoteResponse :=
  match handler with
  | none => { term := 0, vote_granted := false }
  | some h => h req

/-- From `node.rs` `RaftNode::append_entries`: the public RPC entry point,
with `handler = none` modelling a stopped command loop. -/
def append_entries_entry
    (handler : Option (AppendEntriesRequest → AppendEntriesResponse))
    (req : AppendEntriesRequest) : AppendEntriesResponse :=
  match handler with
  | none =>
      { term := 0, success := false, match_index := none, commit_index := 0 }
  | some h => h req

/-! ## Theorems about the claims -/

/-- C1: the claim states that the step-down transition clears `voted_for`
to `None`, and in particular that after `become_follower` runs for a
higher term `voted_for` is `None`. The code contradicts this:
`NodeState::become_follower` leaves `voted_for` untouched. With
`current_term = 1` and `voted_for = Some(2)`, stepping down to term 2
leaves `voted_for = Some(2)`, not `None`. -/
theorem c1_become_follower_keeps_voted_for :
    (({ NodeState.new 1 [1, 2, 3] with
          persistent := { current_term := 1, voted_for := some 2 } } :
        NodeState).become_follower 2 none).persistent.voted_for
      = some 2 := rfl

/-- C3: the claim states that handling the same AppendEntries request
twice leaves the log identical to handling it once. The code appends
`req.entries` unconditionally whenever they are non-empty (the
same-term check only skips the truncation), and `append` extends the
vector positionally, so a replayed request duplicates its entries:
starting from an empty node, replaying a request carrying one entry
leaves two stored entries and `last_index = 2` instead of one entry and
`last_index = 1`. -/
theorem c3_append_entries_replay_not_idempotent :
    (let n0 : RaftNodeInner := ⟨NodeState.new 1 [1, 2], MemoryLogStorage.new⟩
     let req : AppendEntriesRequest :=
       { term := 1, leader_id := 2, prev_log_index := 0, prev_log_term := 0
         entries := [{ term := 1, index := 1, command := [7] }]
         leader_commit := 0 }
     let n1 := (n0.handle_append_entries req).1
     let n2 := (n1.handle_append_entries req).1
     n1.log.entries.length = 1 ∧ n1.log.last_index = 1 ∧
       n2.log.entries.length = 2 ∧ n2.log.last_index = 2) := by
  decide

/-- C8: with a snapshot installed, `get_term(last_included_index)`
returns the snapshot's `last_included_term`, and `get(i)` returns `None`
for every index `i ≤ last_included_index`. -/
theorem c8_snapshot_boundary (s : MemoryLogStorage) (snap : Snapshot)
    (hs : s.snapshot = some snap) (i : Nat)
    (hi : i ≤ snap.metadata.last_included_index) :
    s.get_term snap.metadata.last_included_index =
        some snap.metadata.last_included_term ∧
      s.get i = none := by
  constructor
  · unfold MemoryLogStorage.get_term
    rw [hs]
    simp
  · unfold MemoryLogStorage.get
    rw [hs]
    simp [hi]

/-- Witness for C8 at a concrete storage: one entry at index 3 above a
snapshot whose boundary is `(index 2, term 1)`. -/
theorem c8_snapshot_boundary_witness :
    ((⟨[⟨2, 3, [0]⟩], some ⟨⟨2, 1, []⟩, []⟩⟩ :
        MemoryLogStorage).snapshot = some ⟨⟨2, 1, []⟩, []⟩ ∧ (1 : Nat) ≤ 2) ∧
      ((⟨[⟨2, 3, [0]⟩], some ⟨⟨2, 1, []⟩, []⟩⟩ :
          MemoryLogStorage).get_term 2 = some 1 ∧
        (⟨[⟨2, 3, [0]⟩], some ⟨⟨2, 1, []⟩, []⟩⟩ :
          MemoryLogStorage).get 1 = none) :=
  ⟨⟨rfl, by decide⟩,
    c8_snapshot_boundary _ ⟨⟨2, 1, []⟩, []⟩ rfl 1 (by decide)⟩

/-- C10: with the command loop stopped (`handler = none`, the channel to
the node's event loop is closed), the public RPC entry points surface no
error: `request_vote` answers `{term: 0, vote_granted: false}` and
`append_entries` answers
`{term: 0, success: false, match_index: None, commit_index: 0}`, for
every request. -/
theorem c10_shutdown_default_responses (rv : RequestVoteRequest)
    (ae : AppendEntriesRequest) :
    request_vote_entry none rv = { term := 0, vote_granted := false } ∧
      append_entries_entry none ae =
        { term := 0, success := false, match_index := none,
          commit_index := 0 } :=
  ⟨rfl, rfl⟩

/-- C5: an AppendEntries request with `req.term < current_term` is
rejected with `{term: current_term, success: false}` and nothing
changes: the node state (term, vote, role, leader id, commit index) and
the log are returned exactly as they were. -/
theorem c5_stale_append_entries_noop (n : RaftNodeInner)
    (req : AppendEntriesRequest)
    (h : req.term < n.state.persistent.current_term) :
    n.handle_append_entries req =
      (n, { term := n.state.persistent.current_term
            success := false
            match_index := none
            commit_index := n.state.volatile.commit_index }) := by
  have h1 : ¬ req.term > n.state.persistent.current_term := by omega
  unfold RaftNodeInner.handle_append_entries
  simp only [h1, if_false, ite_false, if_pos h]

/-- Witness for C5: a node at term 3 rejects a term-1 request without
any state change. -/
theorem c5_stale_append_entries_noop_witness :
    ((1 : Nat) <
        (⟨{ NodeState.new 1 [1, 2] with
              persistent := { current_term := 3, voted_for := none } },
          MemoryLogStorage.new⟩ :
          RaftNodeInner).state.persistent.current_term) ∧
      ((⟨{ NodeState.new 1 [1, 2] with
              persistent := { current_term := 3, voted_for := none } },
          MemoryLogStorage.new⟩ :
          RaftNodeInner).handle_append_entries
          { term := 1, leader_id := 2, prev_log_index := 0,
            prev_log_term := 0, entries := [], leader_commit := 5 } =
        (⟨{ NodeState.new 1 [1, 2] with
              persistent := { current_term := 3, voted_for := none } },
          MemoryLogStorage.new⟩,
          { term := 3, success := false, match_index := none,
            commit_index := 0 })) :=
  ⟨by decide, c5_stale_append_entries_noop _ _ (by decide)⟩

/-- C7: `has_majority(N)` returns true iff the grant count plus the
candidate's implicit self vote is strictly more than `N / 2` in exact
rational arithmetic, for any cluster size `N ≥ 1` and any granting set
not containing the candidate itself. -/
theorem c7_has_majority_iff (c : CandidateState) (self n : Nat)
    (hn : 1 ≤ n) (hself : self ∉ c.votes_received) :
    (c.has_majority n = true ↔
      ((c.votes_received.card + 1 : ℚ) > (n : ℚ) / 2)) := by
  unfold CandidateState.has_majority
  rw [decide_eq_true_eq, gt_iff_lt, gt_iff_lt,
    Nat.div_lt_iff_lt_mul (by norm_num),
    div_lt_iff₀ (by norm_num : (0 : ℚ) < 2)]
  exact_mod_cast Iff.rfl

/-- Witness for C7: two granting peers in a five-node cluster form a
majority together with the candidate's self vote. -/
theorem c7_has_majority_iff_witness :
    ((1 : Nat) ≤ 5 ∧ (1 : Nat) ∉ ({2, 3} : Finset Nat)) ∧
      ((CandidateState.mk {2, 3}).has_majority 5 = true ↔
        (((CandidateState.mk {2, 3}).votes_received.card + 1 : ℚ) >
          (5 : ℚ) / 2)) :=
  ⟨⟨by decide, by decide⟩, c7_has_majority_iff _ 1 5 (by decide) (by decide)⟩

/-- C9: `MemoryLogStorage` addresses entries purely positionally: with a
non-empty entries vector, `last_index + 1 = first_index + length` (the
first index being `offset`, i.e. `snapshot.last_included_index + 1` or 1
with no snapshot); `get i` for `i ≥ first_index` is the entry stored at
position `i - first_index`; and `append` stores any entries unchanged
with no validation of their index fields. -/
theorem c9_positional_addressing (s : MemoryLogStorage) (es : List Entry)
    (i : Nat) (h1 : s.entries ≠ []) (h2 : s.offset ≤ i) :
    s.last_index + 1 = s.offset + s.entries.length ∧
      s.get i = s.entries.get? (i - s.offset) ∧
      (s.append es).entries = s.entries ++ es := by
  refine ⟨?_, ?_, rfl⟩
  · have hlen : s.entries.length ≠ 0 := by
      simpa [List.length_eq_zero] using h1
    unfold MemoryLogStorage.last_index MemoryLogStorage.to_log_index
    rw [if_neg (by simpa [List.isEmpty_iff] using h1)]
    omega
  · unfold MemoryLogStorage.get MemoryLogStorage.to_array_index
    cases hs : s.snapshot with
    | none =>
        have h3 : ¬ i < s.offset := by omega
        simp [h3]
    | some snap =>
        have hoff : s.offset = snap.metadata.last_included_index + 1 := by
          unfold MemoryLogStorage.offset
          rw [hs]
        have h3 : ¬ i ≤ snap.metadata.last_included_index := by omega
        have h4 : ¬ i < s.offset := by omega
        simp [h3, h4]

/-- Witness for C9: one entry above a snapshot boundary at index 2; the
entry lives at log index 3, position 0, and appending an entry with an
arbitrary index field is accepted verbatim. -/
theorem c9_positional_addressing_witness :
    ((⟨[⟨2, 3, [0]⟩], some ⟨⟨2, 1, []⟩, []⟩⟩ :
        MemoryLogStorage).entries ≠ [] ∧
      (⟨[⟨2, 3, [0]⟩], some ⟨⟨2, 1, []⟩, []⟩⟩ :
        MemoryLogStorage).offset ≤ 3) ∧
      ((⟨[⟨2, 3, [0]⟩], some ⟨⟨2, 1, []⟩, []⟩⟩ :
          MemoryLogStorage).last_index + 1 =
          (⟨[⟨2, 3, [0]⟩], some ⟨⟨2, 1, []⟩, []⟩⟩ :
            MemoryLogStorage).offset +
            (⟨[⟨2, 3, [0]⟩], some ⟨⟨2, 1, []⟩, []⟩⟩ :
              MemoryLogStorage).entries.length ∧
        (⟨[⟨2, 3, [0]⟩], some ⟨⟨2, 1, []⟩, []⟩⟩ :
            MemoryLogStorage).get 3 =
          (⟨[⟨2, 3, [0]⟩], some ⟨⟨2, 1, []⟩, []⟩⟩ :
              MemoryLogStorage).entries.get?
            (3 - (⟨[⟨2, 3, [0]⟩], some ⟨⟨2, 1, []⟩, []⟩⟩ :
              MemoryLogStorage).offset) ∧
        ((⟨[⟨2, 3, [0]⟩], some ⟨⟨2, 1, []⟩, []⟩⟩ :
              MemoryLogStorage).append [⟨9, 9, [1]⟩]).entries =
          (⟨[⟨2, 3, [0]⟩], some ⟨⟨2, 1, []⟩, []⟩⟩ :
              MemoryLogStorage).entries ++ [⟨9, 9, [1]⟩]) :=
  ⟨⟨by decide, by decide⟩,
    c9_positional_addressing _ [⟨9, 9, [1]⟩] 3 (by decide) (by decide)⟩

/-- Helper for C6: unrolling `apply_committed` over a window of `k`
indices during which every `get` succeeds. -/
theorem apply_committed_range (log : MemoryLogStorage) :
    ∀ (k la : Nat),
      (∀ i, la < i → i ≤ la + k → (log.get i).isSome) →
      apply_committed log la (la + k) =
        (la + k,
          (List.range' (la + 1) k).map
            fun i => ((log.get i).map Entry.command).getD []) := by
  intro k
  induction k with
  | zero =>
      intro la _
      rw [apply_committed]
      simp
  | succ k ih =>
      intro la h
      have hsome : (log.get (la + 1)).isSome :=
        h (la + 1) (by omega) (by omega)
      obtain ⟨e, he⟩ := Option.isSome_iff_exists.mp hsome
      have harr : la + (k + 1) = (la + 1) + k := by omega
      have ihx := ih (la + 1) (fun i hi1 hi2 => h i (by omega) (by omega))
      rw [apply_committed, if_pos (by omega : la < la + (k + 1))]
      rw [harr]
      simp only [he]
      rw [ihx]
      simp [he, List.range'_succ]

/-- C6: whenever `commit_index > last_applied` and the log holds an
entry at every index in between, the apply loop applies exactly the
payloads of entries `last_applied + 1 .. commit_index`, in increasing
index order, and finishes with `last_applied = commit_index`. -/
theorem c6_apply_committed_spec (log : MemoryLogStorage) (la ci : Nat)
    (h1 : la < ci) (h2 : ∀ i, la < i → i ≤ ci → (log.get i).isSome) :
    (apply_committed log la ci).1 = ci ∧
      (apply_committed log la ci).2 =
        (List.range' (la + 1) (ci - la)).map
          fun i => ((log.get i).map Entry.command).getD [] := by
  obtain ⟨k, hk⟩ : ∃ k, ci = la + k := ⟨ci - la, by omega⟩
  subst hk
  have hx := apply_committed_range log k la
    (fun i hi1 hi2 => h2 i hi1 (by omega))
  rw [Nat.add_sub_cancel_left]
  constructor <;> rw [hx]

/-- Witness for C6: a three-entry log applied from `last_applied = 0` up
to `commit_index = 3` yields the three payloads in order. -/
theorem c6_apply_committed_spec_witness :
    ((0 : Nat) < 3 ∧
      (∀ i, 0 < i → i ≤ 3 →
        ((⟨[⟨1, 1, [10]⟩, ⟨1, 2, [20]⟩, ⟨1, 3, [30]⟩], none⟩ :
          MemoryLogStorage).get i).isSome)) ∧
      ((apply_committed
            ⟨[⟨1, 1, [10]⟩, ⟨1, 2, [20]⟩, ⟨1, 3, [30]⟩], none⟩ 0 3).1 = 3 ∧
        (apply_committed
            ⟨[⟨1, 1, [10]⟩, ⟨1, 2, [20]⟩, ⟨1, 3, [30]⟩], none⟩ 0 3).2 =
          (List.range' 1 3).map
            fun i =>
              (((⟨[⟨1, 1, [10]⟩, ⟨1, 2, [20]⟩, ⟨1, 3, [30]⟩], none⟩ :
                  MemoryLogStorage).get i).map Entry.command).getD []) :=
  ⟨⟨by decide, by intro i hi1 hi2; interval_cases i <;> decide⟩,
    c6_apply_committed_spec _ 0 3 (by decide)
      (by intro i hi1 hi2; interval_cases i <;> decide)⟩

/-- C4: for every request whose term is at least the node's current term
(equivalently, at least the term after any step-down), the RequestVote
handler grants the vote iff `voted_for` is unset or equals the
candidate and the candidate's `(last_log_term, last_log_index)` is
lexicographically at least ours; the response carries the request's
term, and a rejected request leaves `voted_for` unchanged. -/
theorem c4_request_vote_grant_iff (n : RaftNodeInner)
    (req : RequestVoteRequest)
    (h : req.term ≥ n.state.persistent.current_term) :
    (((n.handle_request_vote req).2.vote_granted = true ↔
        ((n.state.persistent.voted_for = none ∨
            n.state.persistent.voted_for = some req.candidate_id) ∧
          (req.last_log_term > n.log.last_term ∨
            (req.last_log_term = n.log.last_term ∧
              req.last_log_index ≥ n.log.last_index)))) ∧
      (n.handle_request_vote req).2.term = req.term ∧
      ((n.handle_request_vote req).2.vote_granted = false →
        (n.handle_request_vote req).1.state.persistent.voted_for =
          n.state.persistent.voted_for)) := by
  by_cases hgt : req.term > n.state.persistent.current_term <;>
  cases hv : n.state.persistent.voted_for with
  | _ =>
    simp only [RaftNodeInner.handle_request_vote, NodeState.become_follower,
      hgt, hv, if_true, if_false, ite_true, ite_false]
    split_ifs <;> simp_all <;> omega

/-- Witness for C4, the stale-vote scenario: `current_term = 5`,
`voted_for = Some(2)`, RequestVote from node 3 at term 5 is rejected
with term 5 and `voted_for` unchanged. -/
theorem c4_request_vote_grant_iff_witness :
    ((⟨5, 3, 0, 0⟩ : RequestVoteRequest).term ≥
        (⟨{ NodeState.new 1 [1, 2, 3] with
              persistent := { current_term := 5, voted_for := some 2 } },
            MemoryLogStorage.new⟩ :
          RaftNodeInner).state.persistent.current_term) ∧
      ((⟨{ NodeState.new 1 [1, 2, 3] with
             persistent := { current_term := 5, voted_for := some 2 } },
           MemoryLogStorage.new⟩ :
          RaftNodeInner).handle_request_vote
          ⟨5, 3, 0, 0⟩).2.vote_granted = false ∧
      ((⟨{ NodeState.new 1 [1, 2, 3] with
             persistent := { current_term := 5, voted_for := some 2 } },
           MemoryLogStorage.new⟩ :
          RaftNodeInner).handle_request_vote ⟨5, 3, 0, 0⟩).2.term = 5 ∧
      ((⟨{ NodeState.new 1 [1, 2, 3] with
             persistent := { current_term := 5, voted_for := some 2 } },
           MemoryLogStorage.new⟩ :
          RaftNodeInner).handle_request_vote
          ⟨5, 3, 0, 0⟩).1.state.persistent.voted_for = some 2 :=
  ⟨by decide, by
    have h := c4_request_vote_grant_iff
      ⟨{ NodeState.new 1 [1, 2, 3] with
           persistent := { current_term := 5, voted_for := some 2 } },
        MemoryLogStorage.new⟩
      ⟨5, 3, 0, 0⟩ (by decide)
    revert h
    decide, by decide, by decide⟩

/-- C2 counterexample: the claim says the new `commit_index` is
`min(leader_commit, last log index after appends)`. On a follower whose
log holds entries 1..3 at term 1, a heartbeat
(`entries = []`, `prev_log_index = 1`, `leader_commit = 3`) passes both
checks, the log's last index stays 3, and the claim demands
`min(3, 3) = 3`; the handler instead sets `commit_index = 1`, because it
uses `prev_log_index` as the bound when `entries` is empty. -/
theorem c2_commit_advance_counterexample :
    (let n : RaftNodeInner :=
       ⟨{ NodeState.new 1 [1, 2] with
            persistent := { current_term := 1, voted_for := none } },
        ⟨[⟨1, 1, [0]⟩, ⟨1, 2, [0]⟩, ⟨1, 3, [0]⟩], none⟩⟩
     let req : AppendEntriesRequest := ⟨1, 2, 1, 1, [], 3⟩
     let res := n.handle_append_entries req
     res.2.success = true ∧ res.1.log.last_index = 3 ∧
       min req.leader_commit res.1.log.last_index = 3 ∧
       res.1.state.volatile.commit_index = 1) := by
  decide

/-- C2 as amended: when the request passes the term and consistency
checks and `leader_commit > commit_index`, the handler sets
`commit_index` to `min(leader_commit, last_new_index)` where
`last_new_index` is the index field of the last entry in `req.entries`,
or `prev_log_index` when `entries` is empty — not the log's last
index. -/
theorem c2_commit_advance_amended (n : RaftNodeInner)
    (req : AppendEntriesRequest)
    (h1 : req.term ≥ n.state.persistent.current_term)
    (h2 : ¬(req.prev_log_index > 0 ∧
        n.log.get_term req.prev_log_index ≠ some req.prev_log_term))
    (h3 : req.leader_commit > n.state.volatile.commit_index) :
    (n.handle_append_entries req).1.state.volatile.commit_index =
      min req.leader_commit
        ((req.entries.getLast?.map Entry.index).getD req.prev_log_index) := by
  unfold RaftNodeInner.handle_append_entries
  by_cases hgt : req.term > n.state.persistent.current_term <;>
    simp only [hgt, NodeState.become_follower, if_true, if_false, ite_true,
      ite_false] <;>
    split_ifs <;> simp_all <;> omega

/-- Witness for C2 as amended: the heartbeat of the counterexample
scenario advances `commit_index` to
`min(leader_commit, prev_log_index) = 1`. -/
theorem c2_commit_advance_amended_witness :
    ((⟨1, 2, 1, 1, [], 3⟩ : AppendEntriesRequest).term ≥
        (⟨{ NodeState.new 1 [1, 2] with
              persistent := { current_term := 1, voted_for := none } },
           ⟨[⟨1, 1, [0]⟩, ⟨1, 2, [0]⟩, ⟨1, 3, [0]⟩], none⟩⟩ :
          RaftNodeInner).state.persistent.current_term ∧
      ¬((⟨1, 2, 1, 1, [], 3⟩ : AppendEntriesRequest).prev_log_index > 0 ∧
          (⟨{ NodeState.new 1 [1, 2] with
                persistent := { current_term := 1, voted_for := none } },
             ⟨[⟨1, 1, [0]⟩, ⟨1, 2, [0]⟩, ⟨1, 3, [0]⟩], none⟩⟩ :
            RaftNodeInner).log.get_term 1 ≠ some 1) ∧
      (⟨1, 2, 1, 1, [], 3⟩ : AppendEntriesRequest).leader_commit >
        (⟨{ NodeState.new 1 [1, 2] with
              persistent := { current_term := 1, voted_for := none } },
           ⟨[⟨1, 1, [0]⟩, ⟨1, 2, [0]⟩, ⟨1, 3, [0]⟩], none⟩⟩ :
          RaftNodeInner).state.volatile.commit_index) ∧
      ((⟨{ NodeState.new 1 [1, 2] with
             persistent := { current_term := 1, voted_for := none } },
          ⟨[⟨1, 1, [0]⟩, ⟨1, 2, [0]⟩, ⟨1, 3, [0]⟩], none⟩⟩ :
          RaftNodeInner).handle_append_entries
          ⟨1, 2, 1, 1, [], 3⟩).1.state.volatile.commit_index =
        min 3 1 :=
  ⟨⟨by decide, by decide, by decide⟩,
    c2_commit_advance_amended _ ⟨1, 2, 1, 1, [], 3⟩ (by decide) (by decide)
      (by decide)⟩

end ObjectBox
